import Mathlib

/-!
Shallow embedding of the `SimpleRenderer` component of
`src/src-tauri/src/babylon_native_simple.{hpp,cpp}`.

C++ `float` state is modelled over `ℝ`; the per-frame time delta, computed
in the source from a wall clock, is passed as an explicit parameter; the
platform device-creation collaborator (`initialize_d3d11`) is modelled by a
boolean parameter giving its result; `rand()/RAND_MAX` in `add_cube` is
modelled by a real parameter `r`.  Logging and the actual draw calls have no
observable state and are omitted.
-/

namespace Engine

/-- Mirrors `SimpleRenderer::Cube` (babylon_native_simple.hpp, lines 26-31):
position, uniform size, RGB color (`color[0..2]` as three fields), the
per-cube speed multiplier and the accumulated animation phase. -/
structure Cube where
  x : ℝ
  y : ℝ
  z : ℝ
  size : ℝ
  color0 : ℝ
  color1 : ℝ
  color2 : ℝ
  rotation_speed : ℝ
  animation_time : ℝ

/-- Mirrors the data members of `SimpleRenderer` (babylon_native_simple.hpp,
lines 19-49), with the in-class default member initializers of the header as
Lean field defaults.  The Windows-only device handles carry no modelled
state beyond the `directx_initialized` flag. -/
structure SimpleRenderer where
  width : ℕ
  height : ℕ
  frame_count : ℕ := 0
  clear_color0 : ℝ := 0.1
  clear_color1 : ℝ := 0.1
  clear_color2 : ℝ := 0.15
  native_rendering_enabled : Bool := false
  cubes : List Cube := []
  animation_time : ℝ := 0
  camera_orbit_angle : ℝ := 0
  camera_distance : ℝ := 10
  camera_height : ℝ := 5
  animation_enabled : Bool := true
  directx_initialized : Bool := false

/-- The cube built by `SimpleRenderer::add_cube` (lines 148-161): red color,
phase 0, and `rotation_speed = 1.0f + (rand()/RAND_MAX) * 2.0f`, with the
random draw `rand()/RAND_MAX` passed in as `r`. -/
def mkCube (x y z size r : ℝ) : Cube :=
  { x := x, y := y, z := z, size := size,
    color0 := 1, color1 := 0, color2 := 0,
    rotation_speed := 1 + r * 2, animation_time := 0 }

/-- `SimpleRenderer::add_cube` (lines 148-161): appends the new cube. -/
def add_cube (s : SimpleRenderer) (x y z size r : ℝ) : SimpleRenderer :=
  { s with cubes := s.cubes ++ [mkCube x y z size r] }

/-- The constructor `SimpleRenderer::SimpleRenderer` (lines 23-35): stores
width and height, leaves every other member at its header default, and adds
one default cube via `add_cube(0, 0, 0, 1)`; `r` is that call's random
speed draw. -/
def create_simple_renderer (w h : ℕ) (r : ℝ) : SimpleRenderer :=
  add_cube { width := w, height := h } 0 0 0 1 r

/-- The per-cube body of the loop in `SimpleRenderer::update_animation`
(lines 244-255).  Note the source reads `base_y` from the cube's CURRENT
`y` (`float base_y = cube.y;`), not from a stored creation-time value. -/
noncomputable def updateCube (dt : ℝ) (c : Cube) : Cube :=
  let t := c.animation_time + dt * c.rotation_speed
  let base_y := c.y
  { c with
    animation_time := t,
    y := base_y + Real.sin t * 0.5,
    color0 := 0.5 + 0.5 * Real.sin t,
    color1 := 0.5 + 0.5 * Real.sin (t + 2.094),
    color2 := 0.5 + 0.5 * Real.sin (t + 4.188) }

/-- `SimpleRenderer::update_animation` (lines 234-256): advances the global
animation clock, advances the camera orbit angle by `dt * 0.5` with one
conditional subtraction of `2 * 3.14159`, and updates every cube. -/
noncomputable def update_animation (s : SimpleRenderer) (dt : ℝ) : SimpleRenderer :=
  let a := s.camera_orbit_angle + dt * 0.5
  { s with
    animation_time := s.animation_time + dt,
    camera_orbit_angle := if a > 2 * 3.14159 then a - 2 * 3.14159 else a,
    cubes := s.cubes.map (updateCube dt) }

/-- The animation-stepper call as guarded inside `SimpleRenderer::render_frame`
(lines 51-57): `update_animation` runs only when `animation_enabled` holds.
This is the spec's stepper contract `advance(deltaTime, ..., animationEnabled)`. -/
noncomputable def advance (s : SimpleRenderer) (dt : ℝ) : SimpleRenderer :=
  if s.animation_enabled then update_animation s dt else s

/-- `SimpleRenderer::render_frame` (lines 47-133): increments the frame
counter unconditionally, then runs the guarded animation step; the dispatch
to a render path touches no modelled state.  `dt` is the wall-clock delta
the source computes from its static `last_time`. -/
noncomputable def render_frame (s : SimpleRenderer) (dt : ℝ) : SimpleRenderer :=
  if s.animation_enabled then
    update_animation { s with frame_count := s.frame_count + 1 } dt
  else
    { s with frame_count := s.frame_count + 1 }

/-- The three render paths of `render_frame`'s dispatch (lines 59-130). -/
inductive RenderPath where
  | nativeDevice
  | nativePending
  | fallback
  deriving DecidableEq

/-- Which dispatch branch of `render_frame` (lines 59, 89, 93) a state takes:
the `if / else if / else` conditions of the source, made disjoint. -/
def takesPath (s : SimpleRenderer) : RenderPath → Prop
  | RenderPath.nativeDevice =>
      s.native_rendering_enabled = true ∧ s.directx_initialized = true
  | RenderPath.nativePending =>
      s.native_rendering_enabled = true ∧ s.directx_initialized = false
  | RenderPath.fallback => s.native_rendering_enabled = false

/-- `SimpleRenderer::get_renderer_info` (lines 224-232). -/
def get_renderer_info (s : SimpleRenderer) : String :=
  if s.native_rendering_enabled && s.directx_initialized then
    "Native DirectX C++ Renderer (Animated)"
  else if s.native_rendering_enabled then
    "Native DirectX C++ Renderer (Initializing...)"
  else
    "OpenGL Fallback C++ Renderer"

/-- `SimpleRenderer::enable_native_rendering` (lines 163-173): sets the
request flag, then asks the device collaborator (`initialize_d3d11`, whose
boolean result is the parameter `d3dOk`); on success marks the device ready,
on failure rolls the request flag back. -/
def enable_native_rendering (s : SimpleRenderer) (d3dOk : Bool) : SimpleRenderer :=
  let s1 : SimpleRenderer := { s with native_rendering_enabled := true }
  if d3dOk then { s1 with directx_initialized := true }
  else { s1 with native_rendering_enabled := false }

/-- `SimpleRenderer::set_camera_orbit` (lines 258-263). -/
def set_camera_orbit (s : SimpleRenderer) (angle distance height : ℝ) : SimpleRenderer :=
  { s with camera_orbit_angle := angle, camera_distance := distance,
           camera_height := height }

/-- `SimpleRenderer::toggle_animation` (lines 265-268). -/
def toggle_animation (s : SimpleRenderer) : SimpleRenderer :=
  { s with animation_enabled := !s.animation_enabled }

/-- The three assignments `cubes[index].x/y/z = ...` of `move_object`. -/
def set_xyz (c : Cube) (x y z : ℝ) : Cube :=
  { c with x := x, y := y, z := z }

/-- `SimpleRenderer::move_object` (lines 270-277): writes `x`, `y`, `z` of
the indexed cube when the index is in range, otherwise does nothing. -/
def move_object (s : SimpleRenderer) (index : ℕ) (x y z : ℝ) : SimpleRenderer :=
  if h : index < s.cubes.length then
    { s with cubes := s.cubes.set index (set_xyz (s.cubes.get ⟨index, h⟩) x y z) }
  else s

/-! Concrete states used by witnesses and counterexamples. -/

/-- A cube with base position `(0,0,0)`, size 1, speed multiplier 1, phase 0. -/
def testCube : Cube :=
  { x := 0, y := 0, z := 0, size := 1, color0 := 1, color1 := 0, color2 := 0,
    rotation_speed := 1, animation_time := 0 }

/-- An 800x600 renderer holding one `testCube`, all other members at their
header defaults. -/
def testState : SimpleRenderer :=
  { width := 800, height := 600, cubes := [testCube] }

/-- `testState` with the native path requested and the device ready. -/
def nativeReadyState : SimpleRenderer :=
  { testState with native_rendering_enabled := true, directx_initialized := true }

/-- `testState` with the native path requested but the device not ready. -/
def nativePendingState : SimpleRenderer :=
  { testState with native_rendering_enabled := true, directx_initialized := false }

/-- `testState` with animation paused. -/
def pausedState : SimpleRenderer :=
  { testState with animation_enabled := false }

/-! Small frame lemmas about which members each operation can touch. -/

lemma update_animation_frame_count (s : SimpleRenderer) (dt : ℝ) :
    (update_animation s dt).frame_count = s.frame_count := rfl

lemma update_animation_native (s : SimpleRenderer) (dt : ℝ) :
    (update_animation s dt).native_rendering_enabled = s.native_rendering_enabled := rfl

lemma update_animation_dx (s : SimpleRenderer) (dt : ℝ) :
    (update_animation s dt).directx_initialized = s.directx_initialized := rfl

lemma update_animation_anim_enabled (s : SimpleRenderer) (dt : ℝ) :
    (update_animation s dt).animation_enabled = s.animation_enabled := rfl

lemma render_frame_frame_count (s : SimpleRenderer) (dt : ℝ) :
    (render_frame s dt).frame_count = s.frame_count + 1 := by
  unfold render_frame
  split <;> rfl

lemma render_frame_native (s : SimpleRenderer) (dt : ℝ) :
    (render_frame s dt).native_rendering_enabled = s.native_rendering_enabled := by
  unfold render_frame
  split <;> rfl

lemma render_frame_dx (s : SimpleRenderer) (dt : ℝ) :
    (render_frame s dt).directx_initialized = s.directx_initialized := by
  unfold render_frame
  split <;> rfl

lemma render_frame_anim_enabled (s : SimpleRenderer) (dt : ℝ) :
    (render_frame s dt).animation_enabled = s.animation_enabled := by
  unfold render_frame
  split <;> rfl

/-- Any state takes exactly one of the three dispatch branches. -/
lemma takesPath_existsUnique (s : SimpleRenderer) : ∃! p : RenderPath, takesPath s p := by
  cases hb : s.native_rendering_enabled <;> cases hd : s.directx_initialized
  · exact ⟨RenderPath.fallback, hb, fun q hq => by
      cases q <;> simp [takesPath, hb, hd] at hq ⊢⟩
  · exact ⟨RenderPath.fallback, hb, fun q hq => by
      cases q <;> simp [takesPath, hb, hd] at hq ⊢⟩
  · exact ⟨RenderPath.nativePending, ⟨hb, hd⟩, fun q hq => by
      cases q <;> simp [takesPath, hb, hd] at hq ⊢⟩
  · exact ⟨RenderPath.nativeDevice, ⟨hb, hd⟩, fun q hq => by
      cases q <;> simp [takesPath, hb, hd] at hq ⊢⟩

/-- C4: every `render_frame` call increments the frame counter by exactly 1,
and the state it dispatches on takes exactly one of the three render paths
(native-device, native-pending, fallback) — never zero, never more than one. -/
theorem c4_frame_count_and_unique_path (s : SimpleRenderer) (dt : ℝ) :
    (render_frame s dt).frame_count = s.frame_count + 1 ∧
    ∃! p : RenderPath, takesPath (render_frame s dt) p :=
  ⟨render_frame_frame_count s dt, takesPath_existsUnique (render_frame s dt)⟩

/-- C5 counterexample: with both flags set, `get_renderer_info` returns the
source's literal string "Native DirectX C++ Renderer (Animated)", not the
string "native, animated/ready" named by the claim. -/
theorem c5_literal_string_differs :
    get_renderer_info nativeReadyState = "Native DirectX C++ Renderer (Animated)" ∧
    get_renderer_info nativeReadyState ≠ "native, animated/ready" := by
  constructor
  · rfl
  · decide

/-- C5 (amended): `get_renderer_info` is a pure function of the pair
`(native_rendering_enabled, directx_initialized)` alone, with exactly three
outcomes: `(true, true)` yields "Native DirectX C++ Renderer (Animated)",
`(true, false)` yields "Native DirectX C++ Renderer (Initializing...)", and
`(false, _)` yields "OpenGL Fallback C++ Renderer". -/
theorem c5_status_pure_of_flags (s : SimpleRenderer) :
    (∀ s2 : SimpleRenderer,
        s.native_rendering_enabled = s2.native_rendering_enabled →
        s.directx_initialized = s2.directx_initialized →
        get_renderer_info s = get_renderer_info s2) ∧
    (s.native_rendering_enabled = true → s.directx_initialized = true →
        get_renderer_info s = "Native DirectX C++ Renderer (Animated)") ∧
    (s.native_rendering_enabled = true → s.directx_initialized = false →
        get_renderer_info s = "Native DirectX C++ Renderer (Initializing...)") ∧
    (s.native_rendering_enabled = false →
        get_renderer_info s = "OpenGL Fallback C++ Renderer") := by
  refine ⟨fun s2 h1 h2 => ?_, fun h1 h2 => ?_, fun h1 h2 => ?_, fun h1 => ?_⟩ <;>
    simp [get_renderer_info, *]

/-- C5 witness: the amended statement applied at a concrete initializing
state. -/
theorem c5_status_pure_of_flags_witness :
    get_renderer_info nativePendingState = "Native DirectX C++ Renderer (Initializing...)" :=
  (c5_status_pure_of_flags nativePendingState).2.2.1 rfl rfl

/-- Once the native-request flag is down it stays down across any sequence
of `render_frame` calls, and each of those calls dispatches to the fallback
path. -/
lemma foldl_render_frame_fallback (dts : List ℝ) :
    ∀ s : SimpleRenderer, s.native_rendering_enabled = false →
      (dts.foldl render_frame s).native_rendering_enabled = false ∧
      takesPath (dts.foldl render_frame s) RenderPath.fallback := by
  induction dts with
  | nil => exact fun s h => ⟨h, h⟩
  | cons dt dts ih =>
      intro s h
      have h1 : (render_frame s dt).native_rendering_enabled = false :=
        (render_frame_native s dt).trans h
      simpa using ih (render_frame s dt) h1

/-- C3: if the device-initialization collaborator fails during
`enable_native_rendering`, the request flag is rolled back to `false`, the
ready flag stays `false`, `get_renderer_info` reports the fallback string
immediately, and every subsequent `render_frame` call takes the fallback
path. -/
theorem c3_mode_rollback (s : SimpleRenderer) (h : s.directx_initialized = false) :
    (enable_native_rendering s false).native_rendering_enabled = false ∧
    (enable_native_rendering s false).directx_initialized = false ∧
    get_renderer_info (enable_native_rendering s false) = "OpenGL Fallback C++ Renderer" ∧
    ∀ dts : List ℝ,
      takesPath (dts.foldl render_frame (enable_native_rendering s false))
        RenderPath.fallback := by
  refine ⟨rfl, h, ?_, fun dts => ?_⟩
  · simp [get_renderer_info, enable_native_rendering]
  · exact (foldl_render_frame_fallback dts (enable_native_rendering s false) rfl).2

/-- C3 witness: the rollback applied to the concrete `testState`, with two
subsequent frames. -/
theorem c3_mode_rollback_witness :
    (enable_native_rendering testState false).native_rendering_enabled = false ∧
    (enable_native_rendering testState false).directx_initialized = false ∧
    get_renderer_info (enable_native_rendering testState false) =
      "OpenGL Fallback C++ Renderer" ∧
    takesPath (List.foldl render_frame (enable_native_rendering testState false)
      [(1 : ℝ), 2]) RenderPath.fallback :=
  ⟨(c3_mode_rollback testState rfl).1, (c3_mode_rollback testState rfl).2.1,
   (c3_mode_rollback testState rfl).2.2.1,
   (c3_mode_rollback testState rfl).2.2.2 [(1 : ℝ), 2]⟩

lemma advance_pause (s : SimpleRenderer) (dt : ℝ) (h : s.animation_enabled = false) :
    advance s dt = s := by
  simp [advance, h]

lemma foldl_advance_pause (dts : List ℝ) :
    ∀ s : SimpleRenderer, s.animation_enabled = false → dts.foldl advance s = s := by
  induction dts with
  | nil => exact fun s _ => rfl
  | cons dt dts ih =>
      intro s h
      rw [List.foldl_cons, advance_pause s dt h, ih s h]

lemma render_frame_pause (s : SimpleRenderer) (dt : ℝ) (h : s.animation_enabled = false) :
    render_frame s dt = { s with frame_count := s.frame_count + 1 } := by
  simp [render_frame, h]

lemma foldl_render_frame_pause (dts : List ℝ) :
    ∀ s : SimpleRenderer, s.animation_enabled = false →
      (dts.foldl render_frame s).cubes = s.cubes ∧
      (dts.foldl render_frame s).camera_orbit_angle = s.camera_orbit_angle := by
  induction dts with
  | nil => exact fun s _ => ⟨rfl, rfl⟩
  | cons dt dts ih =>
      intro s h
      rw [List.foldl_cons, render_frame_pause s dt h]
      exact ih _ h

/-- C2: with the animation flag down, any number of stepper calls (with any
time deltas) leaves the whole state untouched, and any number of
`render_frame` calls leaves every cube (hence every phase, vertical position
and color channel) and the camera orbit angle untouched. -/
theorem c2_pause_noop (s : SimpleRenderer) (h : s.animation_enabled = false)
    (dts : List ℝ) :
    dts.foldl advance s = s ∧
    (dts.foldl render_frame s).cubes = s.cubes ∧
    (dts.foldl render_frame s).camera_orbit_angle = s.camera_orbit_angle :=
  ⟨foldl_advance_pause dts s h, foldl_render_frame_pause dts s h⟩

/-- C2 witness: two paused calls on a concrete state. -/
theorem c2_pause_noop_witness :
    [(1 : ℝ), 2].foldl advance pausedState = pausedState ∧
    ([(1 : ℝ), 2].foldl render_frame pausedState).cubes = pausedState.cubes ∧
    ([(1 : ℝ), 2].foldl render_frame pausedState).camera_orbit_angle =
      pausedState.camera_orbit_angle :=
  c2_pause_noop pausedState rfl [(1 : ℝ), 2]

/-- C6: with animation enabled, one stepper call sends each cube's phase
from `t` to exactly `t + dt * rotation_speed`, strictly increasing it
whenever `dt` and the cube's speed multiplier are positive; with the flag
down the stepper never advances any phase; and every cube the program
creates has a positive speed multiplier (`1 + r * 2` with a random draw
`r ≥ 0`). -/
theorem c6_phase_monotonic (s : SimpleRenderer) (dt : ℝ)
    (h : s.animation_enabled = true) :
    List.Forall₂ (fun c c' =>
        c'.animation_time = c.animation_time + dt * c.rotation_speed ∧
        (0 < dt → 0 < c.rotation_speed → c.animation_time < c'.animation_time))
      s.cubes (advance s dt).cubes ∧
    (∀ (s2 : SimpleRenderer) (dt2 : ℝ), s2.animation_enabled = false →
        (advance s2 dt2).cubes.map Cube.animation_time =
          s2.cubes.map Cube.animation_time) ∧
    (∀ x y z size r : ℝ, 0 ≤ r → 0 < (mkCube x y z size r).rotation_speed) := by
  refine ⟨?_, ?_, ?_⟩
  · have hadv : (advance s dt).cubes = s.cubes.map (updateCube dt) := by
      simp [advance, h, update_animation]
    rw [hadv, List.forall₂_map_right_iff, List.forall₂_same]
    intro c _
    refine ⟨rfl, fun hdt hsp => ?_⟩
    have : 0 < dt * c.rotation_speed := mul_pos hdt hsp
    show c.animation_time < c.animation_time + dt * c.rotation_speed
    linarith
  · intro s2 dt2 h2
    rw [advance_pause s2 dt2 h2]
  · intro x y z size r hr
    show 0 < 1 + r * 2
    linarith

/-- C6 witness: one enabled call with `dt = 1` on a concrete one-cube state. -/
theorem c6_phase_monotonic_witness :
    List.Forall₂ (fun c c' =>
        c'.animation_time = c.animation_time + 1 * c.rotation_speed ∧
        (0 < (1 : ℝ) → 0 < c.rotation_speed → c.animation_time < c'.animation_time))
      testState.cubes (advance testState 1).cubes :=
  (c6_phase_monotonic testState 1 rfl).1

lemma color_channel_bounds (t : ℝ) :
    0 ≤ 0.5 + 0.5 * Real.sin t ∧ 0.5 + 0.5 * Real.sin t ≤ 1 := by
  have h1 := Real.neg_one_le_sin t
  have h2 := Real.sin_le_one t
  constructor <;> nlinarith

/-- C7: after any stepper update, every cube's three color channels lie in
`[0, 1]`: each is `0.5 + 0.5 * sin(...)` of its phase. -/
theorem c7_bounded_color (s : SimpleRenderer) (dt : ℝ) :
    ((update_animation s dt).cubes).Forall fun c =>
      0 ≤ c.color0 ∧ c.color0 ≤ 1 ∧ 0 ≤ c.color1 ∧ c.color1 ≤ 1 ∧
      0 ≤ c.color2 ∧ c.color2 ≤ 1 := by
  have hcube : ∀ c : Cube,
      0 ≤ (updateCube dt c).color0 ∧ (updateCube dt c).color0 ≤ 1 ∧
      0 ≤ (updateCube dt c).color1 ∧ (updateCube dt c).color1 ≤ 1 ∧
      0 ≤ (updateCube dt c).color2 ∧ (updateCube dt c).color2 ≤ 1 := by
    intro c
    obtain ⟨a0, b0⟩ := color_channel_bounds (c.animation_time + dt * c.rotation_speed)
    obtain ⟨a1, b1⟩ := color_channel_bounds (c.animation_time + dt * c.rotation_speed + 2.094)
    obtain ⟨a2, b2⟩ := color_channel_bounds (c.animation_time + dt * c.rotation_speed + 4.188)
    exact ⟨a0, b0, a1, b1, a2, b2⟩
  have hmap : (update_animation s dt).cubes = s.cubes.map (updateCube dt) := rfl
  rw [hmap, List.forall_iff_forall_mem]
  intro c hc
  rcases List.mem_map.1 hc with ⟨c0, _, rfl⟩
  exact hcube c0

/-- C9: out-of-range `move_object` is a silent no-op returning the state
unchanged; an in-range `move_object` keeps the cube count and the rest of
the renderer state, rewrites exactly the indexed cube's `x`, `y`, `z`, and
leaves every other cube (and the indexed cube's size, color and phase)
as it was. -/
theorem c9_move_object (s : SimpleRenderer) (index : ℕ) (x y z : ℝ) :
    (s.cubes.length ≤ index → move_object s index x y z = s) ∧
    (∀ _ : index < s.cubes.length,
      (move_object s index x y z).cubes.length = s.cubes.length ∧
      (move_object s index x y z).frame_count = s.frame_count ∧
      (move_object s index x y z).camera_orbit_angle = s.camera_orbit_angle ∧
      (move_object s index x y z).animation_enabled = s.animation_enabled ∧
      (move_object s index x y z).native_rendering_enabled = s.native_rendering_enabled ∧
      ∀ j (hj : j < s.cubes.length),
        (move_object s index x y z).cubes[j]? =
          some (if j = index
                then set_xyz (s.cubes.get ⟨j, hj⟩) x y z
                else s.cubes.get ⟨j, hj⟩)) := by
  constructor
  · intro hle
    unfold move_object
    rw [dif_neg (not_lt.2 hle)]
  · intro hlt
    have hdef : move_object s index x y z =
        { s with cubes := s.cubes.set index (set_xyz (s.cubes.get ⟨index, hlt⟩) x y z) } := by
      unfold move_object
      rw [dif_pos hlt]
    rw [hdef]
    refine ⟨by simp, rfl, rfl, rfl, rfl, fun j hj => ?_⟩
    show (s.cubes.set index (set_xyz (s.cubes.get ⟨index, hlt⟩) x y z))[j]? = _
    by_cases hji : j = index
    · subst hji
      rw [List.getElem?_set_eq_of_lt _ (by simpa using hj), if_pos rfl]
    · rw [List.getElem?_set_ne (fun he => hji he.symm), if_neg hji,
          List.getElem?_eq_getElem hj]
      rfl

/-- C9 witness: index 5 on a one-cube state is a no-op; index 0 keeps the
cube count. -/
theorem c9_move_object_witness :
    move_object testState 5 1 2 3 = testState ∧
    (move_object testState 0 1 2 3).cubes.length = testState.cubes.length :=
  ⟨(c9_move_object testState 5 1 2 3).1 (by decide),
   ((c9_move_object testState 0 1 2 3).2 (by decide)).1⟩

/-- C10: a freshly constructed renderer holds exactly one cube — at
`(0,0,0)`, size 1, color `(1,0,0)`, phase 0, speed `1 + r * 2` from the
random draw `r` — with frame counter 0, both native flags down (so the
status string is the fallback one) and animation enabled; the client's
first `add_cube` then yields two cubes, the new one at index 1. -/
theorem c10_initial_state (w h : ℕ) (r : ℝ) :
    (create_simple_renderer w h r).cubes =
      [{ x := 0, y := 0, z := 0, size := 1, color0 := 1, color1 := 0, color2 := 0,
         rotation_speed := 1 + r * 2, animation_time := 0 }] ∧
    (create_simple_renderer w h r).cubes.length = 1 ∧
    (create_simple_renderer w h r).frame_count = 0 ∧
    (create_simple_renderer w h r).native_rendering_enabled = false ∧
    (create_simple_renderer w h r).directx_initialized = false ∧
    get_renderer_info (create_simple_renderer w h r) = "OpenGL Fallback C++ Renderer" ∧
    (create_simple_renderer w h r).animation_enabled = true ∧
    ∀ x y z size r2 : ℝ,
      (add_cube (create_simple_renderer w h r) x y z size r2).cubes.length = 2 ∧
      (add_cube (create_simple_renderer w h r) x y z size r2).cubes[1]? =
        some (mkCube x y z size r2) :=
  ⟨rfl, rfl, rfl, rfl, rfl, rfl, rfl, fun _ _ _ _ _ => ⟨rfl, rfl⟩⟩

/-- C8 counterexample: from angle 0, one update with `dt = 40` leaves the
camera orbit angle at `20 - 2 * 3.14159 ≈ 13.72`, which is NOT below `2π`:
a single subtraction does not wrap a large advance back into `[0, 2π)`. -/
theorem c8_wrap_counterexample :
    (update_animation testState 40).camera_orbit_angle = 0 + 40 * 0.5 - 2 * 3.14159 ∧
    ¬ (update_animation testState 40).camera_orbit_angle < 2 * Real.pi := by
  have hval : (update_animation testState 40).camera_orbit_angle =
      0 + 40 * 0.5 - 2 * 3.14159 := by
    show (if (0 : ℝ) + 40 * 0.5 > 2 * 3.14159 then (0 : ℝ) + 40 * 0.5 - 2 * 3.14159
          else (0 : ℝ) + 40 * 0.5) = 0 + 40 * 0.5 - 2 * 3.14159
    rw [if_pos (by norm_num)]
  refine ⟨hval, ?_⟩
  rw [hval, not_lt]
  nlinarith [Real.pi_lt_d2]

/-- C8 (amended): each update advances the orbit angle by `dt * 0.5` and
subtracts `2 * 3.14159` once when the sum exceeds that constant; whenever
the advanced sum lies in `[0, 2 * (2 * 3.14159)]` — in particular for the
small per-frame deltas the source assumes — the post-update angle lies in
`[0, 2π)`.  (For larger sums the single subtraction is not enough, as the
counterexample shows.) -/
theorem c8_orbit_wrap (s : SimpleRenderer) (dt : ℝ)
    (h0 : 0 ≤ s.camera_orbit_angle + dt * 0.5)
    (h1 : s.camera_orbit_angle + dt * 0.5 ≤ 2 * (2 * 3.14159)) :
    (update_animation s dt).camera_orbit_angle =
      (if s.camera_orbit_angle + dt * 0.5 > 2 * 3.14159
       then s.camera_orbit_angle + dt * 0.5 - 2 * 3.14159
       else s.camera_orbit_angle + dt * 0.5) ∧
    0 ≤ (update_animation s dt).camera_orbit_angle ∧
    (update_animation s dt).camera_orbit_angle < 2 * Real.pi := by
  have hdef : (update_animation s dt).camera_orbit_angle =
      (if s.camera_orbit_angle + dt * 0.5 > 2 * 3.14159
       then s.camera_orbit_angle + dt * 0.5 - 2 * 3.14159
       else s.camera_orbit_angle + dt * 0.5) := rfl
  have hpi := Real.pi_gt_d6
  refine ⟨hdef, ?_, ?_⟩ <;> rw [hdef]
  · split
    · rename_i hcond
      linarith
    · exact h0
  · split
    · linarith
    · rename_i hcond
      rw [not_lt] at hcond
      linarith

/-- C8 witness: a small update (`dt = 2` from angle 0) lands in `[0, 2π)`. -/
theorem c8_orbit_wrap_witness :
    0 ≤ (update_animation testState 2).camera_orbit_angle ∧
    (update_animation testState 2).camera_orbit_angle < 2 * Real.pi :=
  (c8_orbit_wrap testState 2 (by norm_num [testState]) (by norm_num [testState])).2

/-- C1: the code COMPOUNDS the sine offset on the previous frame's `y`
(`float base_y = cube.y;` reads the already-offset value), so the claimed
identity `y = baseY + 0.5 * sin(phase)` fails.  Concretely: a cube created
at `y = 0` with speed 1, stepped twice with `dt = π/2`, ends with phase `π`
and `y = 1/2`, while the claimed formula gives `0 + 0.5 * sin(π) = 0`. -/
theorem c1_base_y_drift :
    (advance (advance testState (Real.pi / 2)) (Real.pi / 2)).cubes.map
        (fun c => (c.animation_time, c.y)) = [(Real.pi, 1 / 2)] ∧
    testCube.y + Real.sin Real.pi * 0.5 = 0 ∧
    (1 / 2 : ℝ) ≠ 0 := by
  refine ⟨?_, ?_, by norm_num⟩
  · show [updateCube (Real.pi / 2) (updateCube (Real.pi / 2) testCube)].map
        (fun c => (c.animation_time, c.y)) = [(Real.pi, 1 / 2)]
    have e1 : (0 : ℝ) + Real.pi / 2 * 1 = Real.pi / 2 := by ring
    simp only [updateCube, testCube, List.map_cons, List.map_nil]
    rw [e1]
    have e2 : Real.pi / 2 + Real.pi / 2 * 1 = Real.pi := by ring
    rw [e2, Real.sin_pi, Real.sin_pi_div_two]
    norm_num
  · show (0 : ℝ) + Real.sin Real.pi * 0.5 = 0
    rw [Real.sin_pi]
    norm_num

end Engine
